import Mathlib

/-!
# MMM-ShellyPV: the node helper's polling engine

A shallow embedding of `src/node_helper.js` (the `fetchShellyPVStatus` run, the
per-device retry loop, the payload normaliser and the `isFetching` lock) and the
properties of it that the specification states.

Conventions of the embedding

* A JavaScript value is a `JVal`: the values `JSON.parse` produces, plus `undefined`.
  Numbers are carried as rationals; the code never computes with them, it only tests
  them for truthiness, prints them and passes them on. Strings are read as sequences of
  UTF-16 code units.
* A thrown exception is an error value; `try`/`catch` is a `match` on it.
* The surroundings of a run are a `World`: the outcome of the k-th `axios.post`, and the
  messages of the host that arrive while the k-th `await` of the run is pending.
* Side effects (requests, timer waits, notifications, error logs) are collected in a
  trace of `Effect`s, in program order.
-/

namespace NodeHelper

/-! ## JavaScript values -/

/-- A JavaScript value: what a parsed JSON body contains, plus `undefined`. -/
inductive JVal where
  | undefined : JVal
  | null : JVal
  | bool (b : Bool) : JVal
  | num (q : ℚ) : JVal
  | str (s : String) : JVal
  | arr (xs : List JVal) : JVal
  | obj (kvs : List (String × JVal)) : JVal

/-- What the code can catch: a `TypeError`, or the rejection of `axios.post`, which
carries `error.response?.status` (`none` when there is no response at all: network
error, timeout). -/
inductive JsError where
  | typeError : JsError
  | http (status : Option Nat) : JsError

/-- The truthiness test of `if (v)`, `v ? a : b`, `v || w` and `!v`. -/
def truthy : JVal → Bool
  | .undefined => false
  | .null => false
  | .bool b => b
  | .num q => decide (q ≠ 0)
  | .str s => decide (s ≠ "")
  | .arr _ => true
  | .obj _ => true

/-- The test `v === undefined`. -/
def isUndefined : JVal → Bool
  | .undefined => true
  | _ => false

/-- The test `v === null`. -/
def isNull : JVal → Bool
  | .null => true
  | _ => false

/-- The values `undefined` and `null`: reading a property of them throws, and `?.`
short-circuits on them. -/
def nullish : JVal → Bool
  | .undefined => true
  | .null => true
  | _ => false

/-- The property named `k` of a value that is neither `undefined` nor `null`. Only the
names the source reads are looked up (`relays`, `meters`, `lights`, `ison`, `power`,
`apower`, `output`, `total_act_power`, `data`, `device_status`, `"pm1:0"`, `"switch:0"`,
`"em:0"`); none of them is a property of arrays, strings, numbers or booleans. -/
def lookupProp : JVal → String → JVal
  | .obj kvs, k => (kvs.lookup k).getD .undefined
  | _, _ => .undefined

/-- The element `v[i]` of a value that is neither `undefined` nor `null`. -/
def lookupIdx : JVal → Nat → JVal
  | .arr xs, i => xs.getD i .undefined
  | .obj kvs, i => (kvs.lookup (toString i)).getD .undefined
  | .str s, i =>
    match s.toList.get? i with
    | some c => .str (String.singleton c)
    | none => .undefined
  | _, _ => .undefined

/-- The expression `v.k` (or `v["k"]`): throws on `undefined` and `null`. -/
def getProp (v : JVal) (k : String) : Except JsError JVal :=
  if nullish v then .error .typeError else .ok (lookupProp v k)

/-- The expression `v[i]`: throws on `undefined` and `null`. -/
def getIdx (v : JVal) (i : Nat) : Except JsError JVal :=
  if nullish v then .error .typeError else .ok (lookupIdx v i)

/-- The expression `v?.k`: `undefined` on `undefined` and `null`. -/
def optProp (v : JVal) (k : String) : JVal :=
  if nullish v then .undefined else lookupProp v k

/-- The expression `v?.[i]`: `undefined` on `undefined` and `null`. -/
def optIdx (v : JVal) (i : Nat) : JVal :=
  if nullish v then .undefined else lookupIdx v i

/-- The expression `a || b`. -/
def jsOr (a b : JVal) : JVal :=
  if truthy a then a else b

mutual
/-- Whether converting a value to a string throws a `TypeError`. A parsed object
converts through `Object.prototype.toString` unless it has a key `toString` of its own:
the value under it is never a function, and `valueOf` gives back the object, so the
conversion throws. An array converts through `join`, which converts its elements. -/
def toStringThrows : JVal → Bool
  | .obj kvs => kvs.any (fun kv => kv.1 == "toString")
  | .arr xs => anyToStringThrows xs
  | _ => false
/-- Whether converting some element of a list to a string throws. -/
def anyToStringThrows : List JVal → Bool
  | [] => false
  | x :: xs => toStringThrows x || anyToStringThrows xs
end

/-- Whether the template of line 106 throws: `power !== null ? power + 'W' : ...`
converts `power` to a string unless it is `null`. -/
def logThrows (power : JVal) : Bool :=
  if isNull power then false else toStringThrows power

/-! ## Configuration and readings -/

/-- One entry of `config.shellysPV`. `ref` is the identity of the JavaScript object:
`===`, and with it `Array.prototype.indexOf`, compares objects by identity, so two
entries are the same entry exactly when they are the same object. `ch` is the optional
channel, a non-negative integer below 2^53: up to there a number is the integer its
literal spells and `parseInt` reads it back from its decimal digits. -/
structure ShellyPV where
  ref : Nat
  id : String
  name : String
  ch : Option (Fin 9007199254740992)
deriving DecidableEq

/-- The value of `shellysPV` in a configuration: `undefined` or `null`; a string; any
other value that is not an array (a number, a boolean, a plain object); or an array of
entries. -/
inductive ShellysField where
  | missing : ShellysField
  | text (s : String) : ShellysField
  | notArray : ShellysField
  | array (entries : List ShellyPV) : ShellysField

/-- A payload of a `CONFIG` notification that is not `null` or `undefined`. -/
structure Config where
  serverUri : Option String
  authKey : Option String
  shellysPV : ShellysField

/-- One element of the `results` array. -/
structure Reading where
  name : String
  isOn : JVal
  power : JVal
  statusClass : String

/-- The object literal of lines 99-104: `power` is replaced by `null` when it is
`undefined`, `statusClass` is `isOn ? 'on' : 'off'`. -/
def mkReading (shellyPV : ShellyPV) (isOn power : JVal) : Reading :=
  { name := shellyPV.name
    isOn := isOn
    power := if isUndefined power then .null else power
    statusClass := if truthy isOn then "on" else "off" }

/-- The object literal of lines 109-114 and 136-141: the reading pushed when there is no
device status or the attempt failed. -/
def noData (shellyPV : ShellyPV) : Reading :=
  { name := shellyPV.name
    isOn := .bool false
    power := .null
    statusClass := "off" }

/-- The expression `parseInt(shellyPV.ch || 0, 10)`. -/
def channelOf (shellyPV : ShellyPV) : Nat :=
  match shellyPV.ch with
  | none => 0
  | some c => if c.val ≠ 0 then c.val else 0

/-! ## The payload normaliser (lines 68-104) -/

/-- Lines 68-97: the values of the locals `isOn` and `power` after the chain of tests on
a truthy `device_status` value `data`. The branches are tried in the order of the
source; an exception leaves the function. -/
def locals (shellyPV : ShellyPV) (data : JVal) : Except JsError (JVal × JVal) := do
  let relays ← getProp data "relays"
  if truthy relays then
    let channel := channelOf shellyPV
    let relay ← getIdx relays channel
    let isOn := jsOr (optProp relay "ison") (.bool false)
    let meters ← getProp data "meters"
    let power := jsOr (optProp (optIdx meters channel) "power") .null
    pure (isOn, power)
  else
    let pm1 ← getProp data "pm1:0"
    if truthy pm1 then
      let power ← getProp pm1 "apower"
      pure (.bool true, power)
    else
      let sw ← getProp data "switch:0"
      if truthy sw then
        let isOn ← getProp sw "output"
        let power ← getProp sw "apower"
        pure (isOn, power)
      else
        let lights ← getProp data "lights"
        if truthy lights then
          let light ← getIdx lights 0
          let isOn := jsOr (optProp light "ison") (.bool false)
          let meters ← getProp data "meters"
          if truthy meters then
            let meter ← getIdx meters 0
            let power ← getProp meter "power"
            pure (isOn, power)
          else
            pure (isOn, .null)
        else
          let em ← getProp data "em:0"
          if truthy em then
            let power ← getProp em "total_act_power"
            pure (.bool true, power)
          else
            pure (.bool false, .null)

/-- Lines 68-104: the reading built from a truthy `device_status` value `data`. -/
def normalise (shellyPV : ShellyPV) (data : JVal) : Except JsError Reading :=
  match locals shellyPV data with
  | .ok (isOn, power) => .ok (mkReading shellyPV isOn power)
  | .error e => .error e

/-- Lines 67-104 and 109-114: the reading built from
`data = response.data?.data?.device_status`. -/
def fromStatus (shellyPV : ShellyPV) (data : JVal) : Except JsError Reading :=
  if truthy data then normalise shellyPV data else .ok (noData shellyPV)

/-- What the inner `try` block did with a resolved request: the readings it pushed, and
the error it threw if it did not reach its `break`. -/
structure Attempt where
  pushed : List Reading
  thrown : Option JsError

/-- Lines 65-117: the inner `try` block after the request has resolved with
`response.data = body`. The reading is pushed on lines 99-104; the log of line 106 comes
after the push and can still throw. -/
def tryBody (shellyPV : ShellyPV) (body : JVal) : Attempt :=
  let data := optProp (optProp body "data") "device_status"
  if truthy data then
    match locals shellyPV data with
    | .ok (isOn, power) =>
      { pushed := [mkReading shellyPV isOn power]
        thrown := if logThrows power then some .typeError else none }
    | .error e => { pushed := [], thrown := some e }
  else { pushed := [noData shellyPV], thrown := none }

/-! ## The normaliser as the specification words it -/

/-- A key is present in a payload when the payload carries a value under it that the
tests of the source accept (`if (data.relays)`, `if (data["pm1:0"])`, ...): any object
or array, and not `null`, `false`, `0` or the empty string. -/
def present (data : JVal) (k : String) : Bool :=
  truthy (lookupProp data k)

/-- The five payload shapes of the specification. -/
inductive Shape where
  | relay : Shape
  | pm1 : Shape
  | switch : Shape
  | light : Shape
  | em : Shape

/-- The key that marks a shape. -/
def Shape.key : Shape → String
  | .relay => "relays"
  | .pm1 => "pm1:0"
  | .switch => "switch:0"
  | .light => "lights"
  | .em => "em:0"

/-- The fixed precedence order of the specification. -/
def Shape.order : List Shape :=
  [.relay, .pm1, .switch, .light, .em]

/-- The shape of the first key present, in precedence order. -/
def firstShape (data : JVal) : Option Shape :=
  Shape.order.find? (fun shape => present data shape.key)

/-- The relay rule (lines 73-75), as a function of `relays` and `meters` alone. -/
def relayRule (shellyPV : ShellyPV) (relays meters : JVal) : Except JsError Reading :=
  .ok (mkReading shellyPV
    (jsOr (optProp (lookupIdx relays (channelOf shellyPV)) "ison") (.bool false))
    (jsOr (optProp (optIdx meters (channelOf shellyPV)) "power") .null))

/-- The `"pm1:0"` rule (lines 79-80), as a function of the `"pm1:0"` value alone. -/
def pm1Rule (shellyPV : ShellyPV) (pm1 : JVal) : Except JsError Reading :=
  .ok (mkReading shellyPV (.bool true) (lookupProp pm1 "apower"))

/-- The `"switch:0"` rule (lines 84-85), as a function of the `"switch:0"` value alone. -/
def switchRule (shellyPV : ShellyPV) (sw : JVal) : Except JsError Reading :=
  .ok (mkReading shellyPV (lookupProp sw "output") (lookupProp sw "apower"))

/-- The lights rule (lines 89-91), as a function of `lights` and `meters` alone; it
throws when `meters` is truthy and `meters[0]` is `undefined` or `null`. -/
def lightRule (shellyPV : ShellyPV) (lights meters : JVal) : Except JsError Reading :=
  if truthy meters then
    if nullish (lookupIdx meters 0) then .error .typeError
    else .ok (mkReading shellyPV (jsOr (optProp (lookupIdx lights 0) "ison") (.bool false))
      (lookupProp (lookupIdx meters 0) "power"))
  else
    .ok (mkReading shellyPV (jsOr (optProp (lookupIdx lights 0) "ison") (.bool false)) .null)

/-- The `"em:0"` rule (lines 95-96), as a function of the `"em:0"` value alone. -/
def emRule (shellyPV : ShellyPV) (em : JVal) : Except JsError Reading :=
  .ok (mkReading shellyPV (.bool true) (lookupProp em "total_act_power"))

/-- The rule of a shape applied to a payload; without a shape, the no-data reading. -/
def ruleOf (shellyPV : ShellyPV) (data : JVal) : Option Shape → Except JsError Reading
  | some .relay => relayRule shellyPV (lookupProp data "relays") (lookupProp data "meters")
  | some .pm1 => pm1Rule shellyPV (lookupProp data "pm1:0")
  | some .switch => switchRule shellyPV (lookupProp data "switch:0")
  | some .light => lightRule shellyPV (lookupProp data "lights") (lookupProp data "meters")
  | some .em => emRule shellyPV (lookupProp data "em:0")
  | none => .ok (noData shellyPV)

/-! ## The surroundings of a run -/

/-- How one `axios.post` settles: resolved with `response.data = body`, or rejected
with `error.response?.status = status`. -/
inductive Outcome where
  | resolved (body : JVal) : Outcome
  | rejected (status : Option Nat) : Outcome

/-- What the host sends: a `CONFIG` notification with its payload (`none` for `null` or
`undefined`), or a trigger (a `GET_SHELLYPV_STATUS` notification or the start-up
timer). -/
inductive Message where
  | config (payload : Option Config) : Message
  | trigger : Message

/-- The surroundings of a run: the outcome of the k-th request, and the messages that
arrive while the k-th `await` of the run is pending. -/
structure World where
  net : Nat → Outcome
  host : Nat → List Message

/-- The observable actions of the helper, in program order: the skip of line 31, the
error of line 40, a request, a timer wait, the notification of line 155, the error of
line 158, and an exception that nothing catches (lines 19 and 39). -/
inductive Effect where
  | skipped : Effect
  | configError : Effect
  | request (url body : String) : Effect
  | wait (ms : Nat) : Effect
  | notify (results : List Reading) : Effect
  | unexpectedError : Effect
  | uncaught : Effect

/-- The state of one traversal: `this.config` as it stands now, the `results` array, the
number of requests sent, the number of `await`s passed, and the trace. -/
structure Progress where
  config : Option Config
  results : List Reading
  sent : Nat
  awaited : Nat
  trace : List Effect

/-- Lines 15-26 while a run is under way. `isFetching` is true for the whole traversal,
so the call of `fetchShellyPVStatus` that a message makes returns on line 32. A `CONFIG`
notification installs its payload first (line 17); line 19 throws on a `null` payload
and makes no call when `shellysPV` is not an array. -/
def receive (p : Progress) : Message → Progress
  | .config none => { p with config := none, trace := p.trace ++ [.uncaught] }
  | .config (some payload) =>
    match payload.shellysPV with
    | .array _ => { p with config := some payload, trace := p.trace ++ [.skipped] }
    | _ => { p with config := some payload }
  | .trigger => { p with trace := p.trace ++ [.skipped] }

/-- One `await`: the messages that arrive while it is pending are handled in order. -/
def await (w : World) (p : Progress) : Progress :=
  (w.host p.awaited).foldl receive { p with awaited := p.awaited + 1 }

/-! ## The per-device retry loop (lines 50-145) -/

/-- The constant of line 51. -/
def maxRetries : Nat := 1

/-- The value of `error.response?.status` for a caught error. -/
def statusOf : JsError → Option Nat
  | .typeError => none
  | .http status => status

/-- The `axios.post` call of lines 57-63 as an effect. -/
def postEffect (config : Config) (shellyPV : ShellyPV) : Effect :=
  .request (config.serverUri.getD "undefined" ++ "/device/status")
    ("id=" ++ shellyPV.id ++ "&auth_key=" ++ config.authKey.getD "undefined")

/-- Lines 54-118: one pass through the inner `try` block. The arguments of the request
read `this.config` (a `TypeError` when it is `null`); the request is awaited; a
rejection is thrown; a resolved request goes through `tryBody`. The result is the state
after the block and the error it threw, if any. -/
def attempt (w : World) (shellyPV : ShellyPV) (p : Progress) : Progress × Option JsError :=
  match p.config with
  | none => (p, some .typeError)
  | some config =>
    let p1 := await w
      { p with sent := p.sent + 1, trace := p.trace ++ [postEffect config shellyPV] }
    match w.net p.sent with
    | .rejected status => (p1, some (.http status))
    | .resolved body =>
      ({ p1 with results := p1.results ++ (tryBody shellyPV body).pushed },
        (tryBody shellyPV body).thrown)

/-- Lines 53-145: the `while (retryCount <= maxRetries)` loop for one device. The first
argument bounds the number of iterations; `none` means the bound was reached. -/
def retryLoop (w : World) (shellyPV : ShellyPV) : Nat → Nat → Progress → Option Progress
  | 0, _, _ => none
  | fuel + 1, retryCount, p =>
    if retryCount ≤ maxRetries then
      match attempt w shellyPV p with
      | (p1, none) => some p1
      | (p1, some error) =>
        if statusOf error = some 429 ∧ retryCount < maxRetries then
          retryLoop w shellyPV fuel (retryCount + 1)
            (await w { p1 with trace := p1.trace ++ [.wait 11000] })
        else
          some { p1 with results := p1.results ++ [noData shellyPV] }
    else some p

/-! ## The traversal (lines 49-152) -/

/-- The expression `array.indexOf(x)` for an array of objects: the first position that
holds the same object, `-1` if there is none. -/
def indexOf (array : List ShellyPV) (x : ShellyPV) : Int :=
  let i := array.findIdx (fun y => y.ref == x.ref)
  if i < array.length then (i : Int) else -1

/-- The first position at which `needle` starts in `text`, counted from `start`; `-1` if
there is none. -/
def findFrom (needle : List Char) : List Char → Nat → Int
  | [], start => if needle.isEmpty then (start : Int) else -1
  | c :: cs, start =>
    if needle.isPrefixOf (c :: cs) then (start : Int) else findFrom needle cs (start + 1)

/-- The expression `s.indexOf(x)` for a string `s` and an entry `x`: the entry converts
to `"[object Object]"`. -/
def textIndexOf (s : String) : Int :=
  findFrom "[object Object]".toList s.toList 0

/-- The test of line 148, `this.config.shellysPV.indexOf(shellyPV) <
this.config.shellysPV.length - 1`, on `this.config` as it stands when the line is
reached. It throws when the configuration is `null`, when `shellysPV` is `undefined` or
`null`, and when `shellysPV` has no method `indexOf`. -/
def notLast (config : Option Config) (shellyPV : ShellyPV) : Except JsError Bool :=
  match config with
  | none => .error .typeError
  | some c =>
    match c.shellysPV with
    | .missing => .error .typeError
    | .notArray => .error .typeError
    | .text s => .ok (decide (textIndexOf s < (s.length : Int) - 1))
    | .array all => .ok (decide (indexOf all shellyPV < (all.length : Int) - 1))

/-- How the outer `try` block ends: it reached line 154, or it threw. -/
inductive Halt where
  | done (p : Progress) : Halt
  | threw (p : Progress) : Halt

/-- Lines 49-152: the `for ... of` loop over the remaining entries of the array it was
started on. `none` means the bound of a retry loop was reached. -/
def forLoop (w : World) : List ShellyPV → Progress → Option Halt
  | [], p => some (.done p)
  | shellyPV :: rest, p =>
    match retryLoop w shellyPV (maxRetries + 1) 0 p with
    | none => none
    | some p1 =>
      match notLast p1.config shellyPV with
      | .error _ => some (.threw p1)
      | .ok true => forLoop w rest (await w { p1 with trace := p1.trace ++ [.wait 3000] })
      | .ok false => forLoop w rest p1

/-! ## The run (lines 28-162) -/

/-- The helper object `this`: `config` is `none` when `this.config` is `null` or
`undefined`. -/
structure Helper where
  config : Option Config
  isFetching : Bool

/-- Lines 29-45: the guard, the lock and the configuration check. The third component
is the array to traverse when the run goes on. Line 39 reads `this.config.shellysPV`
after the lock is set and before the `try`: on a `null` configuration it throws, nothing
catches it and the lock stays. -/
def enter (self : Helper) : Helper × List Effect × Option (List ShellyPV) :=
  if self.isFetching then (self, [.skipped], none)
  else
    let self1 : Helper := { self with isFetching := true }
    match self1.config with
    | none => (self1, [.uncaught], none)
    | some config =>
      match config.shellysPV with
      | .array entries => (self1, [], some entries)
      | _ => ({ self1 with isFetching := false }, [.configError], none)

/-- How the outer `try` block ends: it reached line 155 with `results`, or it threw. -/
inductive Ending where
  | completed (results : List Reading) : Ending
  | threw : Ending

/-- Lines 154-161: the notification or the outer `catch`, then `finally`. -/
def leave (self : Helper) : Ending → Helper × List Effect
  | .completed results => ({ self with isFetching := false }, [.notify results])
  | .threw => ({ self with isFetching := false }, [.unexpectedError])

/-- Lines 28-162: one whole run of `fetchShellyPVStatus`, from the call to its end, in
the world `w`. -/
def fetchShellyPVStatus (self : Helper) (w : World) : Option (Helper × List Effect) :=
  match enter self with
  | (self1, trace1, none) => some (self1, trace1)
  | (self1, trace1, some entries) =>
    match forLoop w entries
      { config := self1.config, results := [], sent := 0, awaited := 0, trace := [] } with
    | none => none
    | some (.done p) =>
      let (self2, trace2) := leave { self1 with config := p.config } (.completed p.results)
      some (self2, trace1 ++ p.trace ++ trace2)
    | some (.threw p) =>
      let (self2, trace2) := leave { self1 with config := p.config } .threw
      some (self2, trace1 ++ p.trace ++ trace2)

/-- The batches sent with `SHELLYPV_STATUS_UPDATE`, in order. -/
def notifications : List Effect → List (List Reading)
  | [] => []
  | .notify results :: rest => results :: notifications rest
  | _ :: rest => notifications rest

/-- The number of requests in a trace. -/
def requests : List Effect → Nat
  | [] => 0
  | .request _ _ :: rest => requests rest + 1
  | _ :: rest => requests rest

/-- The number of waits of `ms` milliseconds in a trace. -/
def waits (ms : Nat) : List Effect → Nat
  | [] => 0
  | .wait t :: rest => (if t = ms then 1 else 0) + waits ms rest
  | _ :: rest => waits ms rest

/-- The number of configuration errors reported in a trace. -/
def configErrors : List Effect → Nat
  | [] => 0
  | .configError :: rest => configErrors rest + 1
  | _ :: rest => configErrors rest

/-- The number of unexpected errors logged by the outer `catch` in a trace. -/
def unexpectedErrors : List Effect → Nat
  | [] => 0
  | .unexpectedError :: rest => unexpectedErrors rest + 1
  | _ :: rest => unexpectedErrors rest

/-! ## The helper as a machine of events -/

/-- What happens to the helper: a message of the host, or the traversal in flight
reaching its end. -/
inductive Event where
  | config (payload : Option Config) : Event
  | trigger : Event
  | settle (ending : Ending) : Event

/-- The helper between events. `active` counts the traversals in flight; the code has no
such counter, it is kept here to state that there is never more than one. -/
structure Node where
  helper : Helper
  active : Nat
  log : List Effect

/-- Lines 5-8: the state `start` leaves. -/
def start : Node :=
  { helper := { config := some { serverUri := none, authKey := none, shellysPV := .missing }
                isFetching := false }
    active := 0
    log := [] }

/-- A call of `fetchShellyPVStatus`, up to its first `await` (or to its `return`, or to
the exception of line 39). With a non-empty array the call stops at the first request
and a traversal is in flight. With an empty array the loop body never runs, there is no
`await`, and the call goes on to line 155 and the `finally` at once. -/
def call (n : Node) : Node :=
  match enter n.helper with
  | (helper, trace, some []) =>
    let (helper1, trace1) := leave helper (.completed [])
    { helper := helper1, active := n.active, log := n.log ++ trace ++ trace1 }
  | (helper, trace, some (_ :: _)) =>
    { helper := helper, active := n.active + 1, log := n.log ++ trace }
  | (helper, trace, none) => { helper := helper, active := n.active, log := n.log ++ trace }

/-- One event. Lines 15-26 for the messages: a `CONFIG` notification installs its
payload, then line 19 throws on a `null` payload and calls `fetchShellyPVStatus` when
`shellysPV` is an array. A traversal can only end while one is in flight. -/
def step (n : Node) : Event → Node
  | .config none =>
    { n with helper := { n.helper with config := none }, log := n.log ++ [.uncaught] }
  | .config (some payload) =>
    let n1 : Node := { n with helper := { n.helper with config := some payload } }
    match payload.shellysPV with
    | .array _ => call n1
    | _ => n1
  | .trigger => call n
  | .settle ending =>
    if n.active = 0 then n
    else
      let (helper, trace) := leave n.helper ending
      { helper := helper, active := n.active - 1, log := n.log ++ trace }

/-- The helper after a sequence of events, from `start`. -/
def run (events : List Event) : Node :=
  events.foldl step start

/-! ## Concrete inputs -/

/-- A device entry without a channel. -/
def deviceA : ShellyPV :=
  { ref := 0, id := "a1", name := "A", ch := none }

/-- A device entry on channel 1. -/
def deviceB : ShellyPV :=
  { ref := 1, id := "b2", name := "B", ch := some 1 }

/-- A device entry of a later configuration: another object. -/
def deviceZ : ShellyPV :=
  { ref := 2, id := "z9", name := "Z", ch := none }

/-- The relay payload of the specification: `relays[1].ison = true`,
`meters[1].power = 42.5`. -/
def relayPayload : JVal :=
  .obj [("relays", .arr [.obj [("ison", .bool false)], .obj [("ison", .bool true)]]),
        ("meters", .arr [.obj [("power", .num 7)], .obj [("power", .num 42.5)]])]

/-- A relay payload whose meter reports a power of 0. -/
def relayZeroPayload : JVal :=
  .obj [("relays", .arr [.obj [("ison", .bool true)]]),
        ("meters", .arr [.obj [("power", .num 0)]])]

/-- A `"pm1:0"` payload with `apower = 0`. -/
def pm1Payload : JVal :=
  .obj [("pm1:0", .obj [("apower", .num 0)])]

/-- A `"pm1:0"` payload whose `apower` is an object with a key `toString`. -/
def oddPowerPayload : JVal :=
  .obj [("pm1:0", .obj [("apower", .obj [("toString", .num 0)])])]

/-- A `"switch:0"` payload without an `output` field. -/
def switchPayload : JVal :=
  .obj [("switch:0", .obj [("apower", .num 12)])]

/-- A lights payload whose light is on and whose `meters` array is empty. -/
def lightsPayload : JVal :=
  .obj [("lights", .arr [.obj [("ison", .bool true)]]), ("meters", .arr [])]

/-- A payload that carries two recognised keys, `relays` and "switch:0". -/
def mixedPayload : JVal :=
  .obj [("switch:0", .obj [("output", .bool false), ("apower", .num 3)]),
        ("relays", .arr [.obj [("ison", .bool true)]])]

/-- A response body that carries `status` as its device status. -/
def bodyOf (status : JVal) : JVal :=
  .obj [("isok", .bool true), ("data", .obj [("device_status", status)])]

/-- A configuration with the given device list. -/
def configOf (entries : List ShellyPV) : Config :=
  { serverUri := some "https://shelly.example", authKey := some "KEY", shellysPV := .array entries }

/-- A configuration without a device list. -/
def configWithoutList : Config :=
  { serverUri := some "https://shelly.example", authKey := some "KEY", shellysPV := .missing }

/-- A host that sends nothing while a run is under way. -/
def quiet : Nat → List Message :=
  fun _ => []

/-- A world in which every request fails without a response and the host is quiet. -/
def deadWorld : World :=
  { net := fun _ => .rejected none, host := quiet }

/-- A world in which every request resolves with `status` as the device status and the
host is quiet. -/
def worldOf (status : JVal) : World :=
  { net := fun _ => .resolved (bodyOf status), host := quiet }

/-- A world in which every request fails without a response and the host sends
`message` while the first request is pending. -/
def worldWith (message : Message) : World :=
  { net := fun _ => .rejected none, host := fun k => if k = 0 then [message] else [] }

/-- The state in which a traversal under `config` begins. -/
def fresh (config : Config) : Progress :=
  { config := some config, results := [], sent := 0, awaited := 0, trace := [] }

/-! ## Lemmas on values -/

theorem truthy_not_nullish (v : JVal) (h : truthy v = true) : nullish v = false := by
  cases v <;> simp [truthy, nullish] at h ⊢

theorem mkReading_noData (shellyPV : ShellyPV) :
    mkReading shellyPV (.bool false) .null = noData shellyPV := by
  simp [mkReading, noData, isUndefined, truthy]

theorem fromStatus_eq_ruleOf (shellyPV : ShellyPV) (data : JVal) :
    fromStatus shellyPV data = ruleOf shellyPV data (firstShape data) := by
  cases data with
  | obj kvs =>
    have hobj : truthy (.obj kvs) = true := rfl
    have hnn : nullish (.obj kvs) = false := rfl
    simp only [fromStatus, normalise, locals, getProp, getIdx, firstShape, Shape.order,
      List.find?, present, Shape.key, hobj, hnn, bind, Except.bind, pure, Except.pure, if_true,
      Bool.false_eq_true, if_false]
    cases h1 : truthy (lookupProp (.obj kvs) "relays")
    · cases h2 : truthy (lookupProp (.obj kvs) "pm1:0")
      · cases h3 : truthy (lookupProp (.obj kvs) "switch:0")
        · cases h4 : truthy (lookupProp (.obj kvs) "lights")
          · cases h5 : truthy (lookupProp (.obj kvs) "em:0")
            · simp [ruleOf, mkReading_noData]
            · simp [ruleOf, emRule, truthy_not_nullish _ h5]
          · cases h6 : truthy (lookupProp (.obj kvs) "meters")
            · simp [ruleOf, lightRule, truthy_not_nullish _ h4, h6]
            · cases h7 : nullish (lookupIdx (lookupProp (.obj kvs) "meters") 0) <;>
                simp [ruleOf, lightRule, truthy_not_nullish _ h4, truthy_not_nullish _ h6, h6,
                  h7]
        · simp [ruleOf, switchRule, truthy_not_nullish _ h3]
      · simp [ruleOf, pm1Rule, truthy_not_nullish _ h2]
    · simp [ruleOf, relayRule, truthy_not_nullish _ h1]
  | undefined =>
    simp [fromStatus, truthy, firstShape, Shape.order, List.find?, present, lookupProp, ruleOf]
  | null =>
    simp [fromStatus, truthy, firstShape, Shape.order, List.find?, present, lookupProp, ruleOf]
  | bool b =>
    cases b <;>
    simp [fromStatus, normalise, locals, getProp, nullish, truthy, firstShape, Shape.order,
      List.find?, present, lookupProp, ruleOf, bind, Except.bind, pure, Except.pure,
      mkReading_noData]
  | num q =>
    by_cases hq : q = 0 <;>
    simp [fromStatus, normalise, locals, getProp, nullish, truthy, firstShape, Shape.order,
      List.find?, present, lookupProp, ruleOf, bind, Except.bind, pure, Except.pure,
      mkReading_noData, hq]
  | str t =>
    by_cases hq : t = "" <;>
    simp [fromStatus, normalise, locals, getProp, nullish, truthy, firstShape, Shape.order,
      List.find?, present, lookupProp, ruleOf, bind, Except.bind, pure, Except.pure,
      mkReading_noData, hq]
  | arr xs =>
    simp [fromStatus, normalise, locals, getProp, nullish, truthy, firstShape, Shape.order,
      List.find?, present, lookupProp, ruleOf, bind, Except.bind, pure, Except.pure,
      mkReading_noData]

/-! ## Lemmas on the loops -/

theorem receive_sent (p : Progress) (m : Message) :
    (receive p m).sent = p.sent ∧ (receive p m).results = p.results := by
  cases m with
  | trigger => exact ⟨rfl, rfl⟩
  | config payload =>
    cases payload with
    | none => exact ⟨rfl, rfl⟩
    | some c =>
      obtain ⟨uri, key, field⟩ := c
      cases field <;> exact ⟨rfl, rfl⟩

theorem foldl_receive_sent (ms : List Message) (p : Progress) :
    (ms.foldl receive p).sent = p.sent ∧ (ms.foldl receive p).results = p.results := by
  induction ms generalizing p with
  | nil => exact ⟨rfl, rfl⟩
  | cons m ms ih =>
    obtain ⟨h1, h2⟩ := ih (receive p m)
    obtain ⟨h3, h4⟩ := receive_sent p m
    exact ⟨h1.trans h3, h2.trans h4⟩

theorem await_sent (w : World) (p : Progress) :
    (await w p).sent = p.sent ∧ (await w p).results = p.results :=
  foldl_receive_sent _ _

theorem attempt_sent (w : World) (shellyPV : ShellyPV) (p : Progress) :
    (attempt w shellyPV p).1.sent ≤ p.sent + 1 := by
  unfold attempt
  cases p.config with
  | none => simp
  | some config =>
    simp only
    cases w.net p.sent with
    | rejected status => simp [(await_sent w _).1]
    | resolved body => simp [(await_sent w _).1]

/-- The retry loop of a device ends in every world, within `maxRetries + 1` passes, and
sends at most two requests. -/
theorem retryLoop_ends (w : World) (shellyPV : ShellyPV) (p : Progress) :
    ∃ q, retryLoop w shellyPV (maxRetries + 1) 0 p = some q ∧ q.sent ≤ p.sent + 2 := by
  have h1 := attempt_sent w shellyPV p
  simp only [retryLoop, maxRetries, Nat.zero_le, if_true, le_refl, Nat.lt_irrefl, and_false,
    if_false]
  cases ha : attempt w shellyPV p with
  | mk p1 thrown =>
    rw [ha] at h1
    cases thrown with
    | none => exact ⟨p1, rfl, by simp at h1 ⊢; omega⟩
    | some error =>
      simp only
      by_cases hs : statusOf error = some 429 ∧ 0 < 1
      · rw [if_pos hs]
        have h2 := attempt_sent w shellyPV (await w { p1 with trace := p1.trace ++ [.wait 11000] })
        rw [(await_sent w _).1] at h2
        cases hb : attempt w shellyPV (await w { p1 with trace := p1.trace ++ [.wait 11000] }) with
        | mk p2 thrown2 =>
          rw [hb] at h2
          simp only at h1 h2
          cases thrown2 with
          | none => exact ⟨p2, rfl, by omega⟩
          | some error2 => exact ⟨_, rfl, by simp only; omega⟩
      · rw [if_neg hs]
        exact ⟨_, rfl, by simp only at h1 ⊢; omega⟩

theorem fromStatus_error (shellyPV : ShellyPV) (data : JVal) (e : JsError)
    (h : fromStatus shellyPV data = .error e) : e = .typeError := by
  rw [fromStatus_eq_ruleOf] at h
  cases hs : firstShape data with
  | none => simp [hs, ruleOf] at h
  | some shape =>
    cases shape <;> simp [hs, ruleOf, relayRule, pm1Rule, switchRule, emRule] at h
    unfold lightRule at h
    split at h
    · split at h
      · simpa using h.symm
      · simp at h
    · simp at h

theorem tryBody_thrown (shellyPV : ShellyPV) (body : JVal) (e : JsError)
    (h : (tryBody shellyPV body).thrown = some e) : e = .typeError := by
  unfold tryBody at h
  simp only at h
  split at h
  · rename_i hd
    cases hl : locals shellyPV (optProp (optProp body "data") "device_status") with
    | ok v =>
      obtain ⟨isOn, power⟩ := v
      simp only [hl] at h
      split at h
      · simpa using h.symm
      · simp at h
    | error e2 =>
      simp only [hl, Option.some.injEq] at h
      subst h
      exact fromStatus_error shellyPV (optProp (optProp body "data") "device_status") e2
        (by simp [fromStatus, hd, normalise, hl])
  · simp at h

/-- In every world, a device gets a second request only when its first request was
answered with status 429. -/
theorem second_request_only_after_429 (w : World) (shellyPV : ShellyPV) (p q : Progress)
    (hq : retryLoop w shellyPV (maxRetries + 1) 0 p = some q) (h2 : p.sent + 2 ≤ q.sent) :
    w.net p.sent = .rejected (some 429) := by
  have h1 := attempt_sent w shellyPV p
  simp only [retryLoop, maxRetries, Nat.zero_le, if_true] at hq
  cases ha : attempt w shellyPV p with
  | mk p1 thrown =>
    rw [ha] at h1 hq
    simp only at h1
    cases thrown with
    | none =>
      simp only [Option.some.injEq] at hq
      subst hq
      omega
    | some error =>
      simp only at hq
      by_cases hs : statusOf error = some 429 ∧ 0 < 1
      · unfold attempt at ha
        cases hc : p.config with
        | none =>
          simp only [hc, Prod.mk.injEq, Option.some.injEq] at ha
          rw [← ha.2] at hs
          simp [statusOf] at hs
        | some config =>
          simp only [hc] at ha
          cases hn : w.net p.sent with
          | rejected status =>
            simp only [hn, Prod.mk.injEq, Option.some.injEq] at ha
            rw [← ha.2] at hs
            simp only [statusOf] at hs
            rw [hs.1]
          | resolved body =>
            simp only [hn, Prod.mk.injEq] at ha
            have := tryBody_thrown shellyPV body error ha.2
            rw [this] at hs
            simp [statusOf] at hs
      · rw [if_neg hs] at hq
        simp only [Option.some.injEq] at hq
        subst hq
        simp only at h2
        omega

/-- The traversal ends in every world. -/
theorem forLoop_ends (w : World) (rest : List ShellyPV) (p : Progress) :
    ∃ halt, forLoop w rest p = some halt := by
  induction rest generalizing p with
  | nil => exact ⟨_, rfl⟩
  | cons shellyPV rest ih =>
    obtain ⟨q, hq, _⟩ := retryLoop_ends w shellyPV p
    simp only [forLoop, hq]
    cases notLast q.config shellyPV with
    | error e => exact ⟨_, rfl⟩
    | ok b =>
      cases b with
      | true => exact ih _
      | false => exact ih _

/-- A call of `fetchShellyPVStatus` ends in every world. -/
theorem fetch_ends (self : Helper) (w : World) :
    ∃ self1 trace, fetchShellyPVStatus self w = some (self1, trace) := by
  unfold fetchShellyPVStatus
  cases he : enter self with
  | mk self1 rest =>
    obtain ⟨trace1, go⟩ := rest
    cases go with
    | none => exact ⟨_, _, rfl⟩
    | some entries =>
      simp only
      obtain ⟨halt, hh⟩ := forLoop_ends w entries
        { config := self1.config, results := [], sent := 0, awaited := 0, trace := [] }
      rw [hh]
      cases halt <;> exact ⟨_, _, rfl⟩

/-- One event keeps the two facts: at most one traversal in flight, and `isFetching`
true while one is. -/
theorem step_keeps_one (n : Node) (e : Event) (hle : n.active ≤ 1)
    (hon : n.active = 1 → n.helper.isFetching = true) :
    (step n e).active ≤ 1 ∧ ((step n e).active = 1 → (step n e).helper.isFetching = true) := by
  obtain ⟨⟨config, isFetching⟩, active, log⟩ := n
  simp only at hle hon
  have hact : active = 0 ∨ (active = 1 ∧ isFetching = true) := by
    rcases Nat.le_one_iff_eq_zero_or_eq_one.1 hle with h | h
    · exact Or.inl h
    · exact Or.inr ⟨h, hon h⟩
  cases e with
  | config payload =>
    cases payload with
    | none => rcases hact with h | ⟨h, h2⟩ <;> subst h <;> simp_all [step]
    | some c =>
      obtain ⟨uri, key, field⟩ := c
      cases field with
      | array entries =>
        cases entries <;> cases isFetching <;>
          rcases hact with h | ⟨h, h2⟩ <;> simp_all [step, call, enter, leave]
      | missing => rcases hact with h | ⟨h, h2⟩ <;> subst h <;> simp_all [step]
      | notArray => rcases hact with h | ⟨h, h2⟩ <;> subst h <;> simp_all [step]
      | text s => rcases hact with h | ⟨h, h2⟩ <;> subst h <;> simp_all [step]
  | trigger =>
    cases config with
    | none =>
      cases isFetching <;> rcases hact with h | ⟨h, h2⟩ <;> simp_all [step, call, enter]
    | some c =>
      obtain ⟨uri, key, field⟩ := c
      cases field with
      | array entries =>
        cases entries <;> cases isFetching <;>
          rcases hact with h | ⟨h, h2⟩ <;> simp_all [step, call, enter, leave]
      | missing =>
        cases isFetching <;> rcases hact with h | ⟨h, h2⟩ <;> simp_all [step, call, enter]
      | notArray =>
        cases isFetching <;> rcases hact with h | ⟨h, h2⟩ <;> simp_all [step, call, enter]
      | text s =>
        cases isFetching <;> rcases hact with h | ⟨h, h2⟩ <;> simp_all [step, call, enter]
  | settle ending =>
    cases ending <;> rcases hact with h | ⟨h, h2⟩ <;> simp_all [step, leave]

theorem foldl_keeps_one (events : List Event) (n : Node) (hle : n.active ≤ 1)
    (hon : n.active = 1 → n.helper.isFetching = true) :
    (events.foldl step n).active ≤ 1
    ∧ ((events.foldl step n).active = 1 → (events.foldl step n).helper.isFetching = true) := by
  induction events generalizing n with
  | nil => exact ⟨hle, hon⟩
  | cons e rest ih =>
    obtain ⟨h1, h2⟩ := step_keeps_one n e hle hon
    exact ih (step n e) h1 h2

/-- After every sequence of events from `start` there is at most one traversal in
flight, and while one is in flight `isFetching` is true. -/
theorem run_keeps_one (events : List Event) :
    (run events).active ≤ 1
    ∧ ((run events).active = 1 → (run events).helper.isFetching = true) :=
  foldl_keeps_one events start (by decide) (by decide)

/-! ## The normaliser -/

/-- C2, at the failing input. For the relay payload with `relays[0].ison = true` and
`meters[0].power = 0` on channel 0, the power is present in the payload and equal to 0,
yet the reading carries `power = null`: `0 || null` of line 75 drops it. The example of
the specification (`42.5` on channel 1) is read as stated. -/
theorem relay_zero_power_is_dropped :
    lookupProp (lookupIdx (lookupProp relayZeroPayload "meters") (channelOf deviceA)) "power"
        = .num 0
    ∧ fromStatus deviceA relayZeroPayload
        = .ok { name := "A", isOn := .bool true, power := .null, statusClass := "on" }
    ∧ fromStatus deviceB relayPayload
        = .ok { name := "B", isOn := .bool true, power := .num 42.5, statusClass := "on" } := by
  refine ⟨by rfl, ?_, ?_⟩
  · simp [fromStatus_eq_ruleOf, relayZeroPayload, firstShape, Shape.order, List.find?, present,
      Shape.key, lookupProp, List.lookup, truthy, ruleOf, relayRule, mkReading, jsOr, optProp,
      optIdx, lookupIdx, nullish, channelOf, deviceA, isUndefined]
  · simp [fromStatus_eq_ruleOf, relayPayload, firstShape, Shape.order, List.find?, present,
      Shape.key, lookupProp, List.lookup, truthy, ruleOf, relayRule, mkReading, jsOr, optProp,
      optIdx, lookupIdx, nullish, channelOf, deviceB, isUndefined]
    norm_num

/-- C3. For every payload whose first present key is `"pm1:0"` (no `relays`; a key is
present when the test the source makes on it succeeds, see `present`), the reading is on
whatever the power is, and its power is `"pm1:0".apower`: 0 stays 0, and a missing
`apower` gives `null`. -/
theorem pm1_reading (shellyPV : ShellyPV) (data : JVal)
    (hrelays : present data "relays" = false) (hpm1 : present data "pm1:0" = true) :
    ∃ r, fromStatus shellyPV data = .ok r
      ∧ r.name = shellyPV.name ∧ r.isOn = .bool true ∧ r.statusClass = "on"
      ∧ r.power = (if isUndefined (lookupProp (lookupProp data "pm1:0") "apower") then .null
          else lookupProp (lookupProp data "pm1:0") "apower")
      ∧ (lookupProp (lookupProp data "pm1:0") "apower" = .num 0 → r.power = .num 0)
      ∧ (lookupProp (lookupProp data "pm1:0") "apower" = .undefined → r.power = .null) := by
  have hshape : firstShape data = some .pm1 := by
    simp [firstShape, Shape.order, List.find?, Shape.key, hrelays, hpm1]
  refine ⟨_, by rw [fromStatus_eq_ruleOf, hshape]; rfl, rfl, rfl, ?_, rfl, ?_, ?_⟩
  · simp [mkReading, truthy]
  · intro h
    simp [mkReading, h, isUndefined]
  · intro h
    simp [mkReading, h, isUndefined]

/-- Witness of C3: the payload whose only key is "pm1:0", with `apower = 0`. -/
theorem pm1_reading_witness :
    present pm1Payload "relays" = false ∧ present pm1Payload "pm1:0" = true ∧
    ∃ r, fromStatus deviceA pm1Payload = .ok r
      ∧ r.name = deviceA.name ∧ r.isOn = .bool true ∧ r.statusClass = "on"
      ∧ r.power = (if isUndefined (lookupProp (lookupProp pm1Payload "pm1:0") "apower")
          then .null else lookupProp (lookupProp pm1Payload "pm1:0") "apower")
      ∧ (lookupProp (lookupProp pm1Payload "pm1:0") "apower" = .num 0 → r.power = .num 0)
      ∧ (lookupProp (lookupProp pm1Payload "pm1:0") "apower" = .undefined → r.power = .null) :=
  ⟨by decide, by decide, pm1_reading deviceA pm1Payload (by decide) (by decide)⟩

/-- C5. For every device-status value, the reading is the one the rule of the first
present key gives, in the order relays, "pm1:0", "switch:0", lights, "em:0" (a key is
present when the test the source makes on it succeeds, see `present`); each rule reads
only the value under its own key (and `meters` for relays and lights), so later keys
have no part in it; with none of the five keys present the reading is off with no
power. -/
theorem first_present_key_decides (shellyPV : ShellyPV) (data : JVal) :
    fromStatus shellyPV data = ruleOf shellyPV data (firstShape data)
    ∧ (present data "relays" = true →
        fromStatus shellyPV data
          = relayRule shellyPV (lookupProp data "relays") (lookupProp data "meters"))
    ∧ (present data "relays" = false → present data "pm1:0" = true →
        fromStatus shellyPV data = pm1Rule shellyPV (lookupProp data "pm1:0"))
    ∧ (present data "relays" = false → present data "pm1:0" = false →
        present data "switch:0" = true →
        fromStatus shellyPV data = switchRule shellyPV (lookupProp data "switch:0"))
    ∧ (present data "relays" = false → present data "pm1:0" = false →
        present data "switch:0" = false → present data "lights" = true →
        fromStatus shellyPV data
          = lightRule shellyPV (lookupProp data "lights") (lookupProp data "meters"))
    ∧ (present data "relays" = false → present data "pm1:0" = false →
        present data "switch:0" = false → present data "lights" = false →
        present data "em:0" = true →
        fromStatus shellyPV data = emRule shellyPV (lookupProp data "em:0"))
    ∧ (present data "relays" = false → present data "pm1:0" = false →
        present data "switch:0" = false → present data "lights" = false →
        present data "em:0" = false →
        fromStatus shellyPV data
          = .ok { name := shellyPV.name, isOn := .bool false, power := .null,
                  statusClass := "off" }) := by
  refine ⟨fromStatus_eq_ruleOf shellyPV data, ?_, ?_, ?_, ?_, ?_, ?_⟩
  · intro h1
    simp [fromStatus_eq_ruleOf, firstShape, Shape.order, List.find?, Shape.key, h1, ruleOf]
  · intro h1 h2
    simp [fromStatus_eq_ruleOf, firstShape, Shape.order, List.find?, Shape.key, h1, h2, ruleOf]
  · intro h1 h2 h3
    simp [fromStatus_eq_ruleOf, firstShape, Shape.order, List.find?, Shape.key, h1, h2, h3,
      ruleOf]
  · intro h1 h2 h3 h4
    simp [fromStatus_eq_ruleOf, firstShape, Shape.order, List.find?, Shape.key, h1, h2, h3, h4,
      ruleOf]
  · intro h1 h2 h3 h4 h5
    simp [fromStatus_eq_ruleOf, firstShape, Shape.order, List.find?, Shape.key, h1, h2, h3, h4,
      h5, ruleOf]
  · intro h1 h2 h3 h4 h5
    simp [fromStatus_eq_ruleOf, firstShape, Shape.order, List.find?, Shape.key, h1, h2, h3, h4,
      h5, ruleOf, noData]

/-- Witness of C5: a payload with both `relays` and "switch:0" is read by the relay rule,
wherever the keys stand in the object. -/
theorem first_present_key_decides_witness :
    present mixedPayload "relays" = true ∧ present mixedPayload "switch:0" = true
    ∧ fromStatus deviceA mixedPayload
        = relayRule deviceA (lookupProp mixedPayload "relays") (lookupProp mixedPayload "meters")
    ∧ relayRule deviceA (lookupProp mixedPayload "relays") (lookupProp mixedPayload "meters")
        = .ok { name := "A", isOn := .bool true, power := .null, statusClass := "on" } :=
  ⟨by decide, by decide, (first_present_key_decides deviceA mixedPayload).2.1 (by decide),
    by rfl⟩

/-- C9, at the failing input. For a `"switch:0"` payload without an `output` field the
reading carries `isOn = undefined`, which is neither `true` nor `false`; its
`statusClass` is "off". -/
theorem switch_without_output_is_undefined :
    present switchPayload "switch:0" = true
    ∧ lookupProp (lookupProp switchPayload "switch:0") "output" = .undefined
    ∧ fromStatus deviceA switchPayload
        = .ok { name := "A", isOn := .undefined, power := .num 12, statusClass := "off" } := by
  refine ⟨by decide, by rfl, ?_⟩
  simp [fromStatus_eq_ruleOf, switchPayload, firstShape, Shape.order, List.find?, present,
    Shape.key, lookupProp, List.lookup, truthy, ruleOf, switchRule, mkReading, deviceA,
    isUndefined]

/-! ## The retry loop -/

/-- C4, at the failing input. For the lights payload with `lights[0].ison = true` and an
empty `meters` array, `data.meters[0].power` of line 91 throws; the per-device `catch`
pushes the no-data reading, whose `isOn` is `false` and not `lights[0].ison`. -/
theorem lights_with_empty_meters_reads_off :
    present lightsPayload "lights" = true
    ∧ lookupProp (lookupIdx (lookupProp lightsPayload "lights") 0) "ison" = .bool true
    ∧ normalise deviceA lightsPayload = .error .typeError
    ∧ retryLoop (worldOf lightsPayload) deviceA (maxRetries + 1) 0 (fresh (configOf [deviceA]))
      = some { config := some (configOf [deviceA])
               results := [{ name := "A", isOn := .bool false, power := .null,
                             statusClass := "off" }]
               sent := 1
               awaited := 1
               trace := [postEffect (configOf [deviceA]) deviceA] } := by
  refine ⟨by decide, by rfl, by rfl, by rfl⟩

/-- C6, at the failing inputs. A first attempt that resolves with the "pm1:0" payload
whose `apower` is an object with a key `toString`: the reading is built and pushed, the
log of line 106 then throws, and the `catch` pushes the no-data reading as well, so the
device has two readings after one request. A first attempt that resolves with the lights
payload whose `meters` array is empty: line 91 throws, and the one reading of the device
is the no-data reading although the attempt succeeded and the light is on. -/
theorem resolved_attempt_is_not_its_normalisation :
    fromStatus deviceA oddPowerPayload
      = .ok { name := "A", isOn := .bool true, power := .obj [("toString", .num 0)],
              statusClass := "on" }
    ∧ retryLoop (worldOf oddPowerPayload) deviceA (maxRetries + 1) 0
        (fresh (configOf [deviceA]))
      = some { config := some (configOf [deviceA])
               results := [{ name := "A", isOn := .bool true,
                             power := .obj [("toString", .num 0)], statusClass := "on" },
                           { name := "A", isOn := .bool false, power := .null,
                             statusClass := "off" }]
               sent := 1
               awaited := 1
               trace := [postEffect (configOf [deviceA]) deviceA] }
    ∧ (worldOf lightsPayload).net 0 = .resolved (bodyOf lightsPayload)
    ∧ lookupProp (lookupIdx (lookupProp lightsPayload "lights") 0) "ison" = .bool true
    ∧ (retryLoop (worldOf lightsPayload) deviceA (maxRetries + 1) 0
        (fresh (configOf [deviceA]))).map (fun p => p.results)
      = some [{ name := "A", isOn := .bool false, power := .null, statusClass := "off" }] := by
  refine ⟨by rfl, by rfl, by rfl, by rfl, by rfl⟩

/-! ## The run -/

/-- C1, at the failing inputs. Two devices whose requests resolve with the "pm1:0"
payload whose `apower` is an object with a key `toString`: each device gets two readings
(the one built, then the no-data one of the `catch` when line 106 throws), so the one
batch has four readings for two devices. Two devices and a `CONFIG` notification without
a device list that arrives while the first request is pending: line 148 throws on
`this.config.shellysPV.indexOf`, the outer `catch` logs it and no batch is sent. -/
theorem batch_is_not_one_reading_per_device :
    (fetchShellyPVStatus (Helper.mk (some (configOf [deviceA, deviceB])) false)
        (worldOf oddPowerPayload)).map
      (fun r => (notifications r.2).map (fun batch => batch.map (fun reading => reading.name)))
      = some [["A", "A", "B", "B"]]
    ∧ (fetchShellyPVStatus (Helper.mk (some (configOf [deviceA, deviceB])) false)
        (worldWith (.config (some configWithoutList)))).map
      (fun r => (r.1.isFetching, (notifications r.2).length, unexpectedErrors r.2,
        requests r.2))
      = some (false, 0, 1, 1) := by
  refine ⟨by decide, by decide⟩

/-- C7 as stated fails for the empty list. With `shellysPV = []` the check of line 39
passes (an empty array is truthy and is an array), so the run reports no configuration
error and sends one empty batch. -/
theorem empty_list_sends_empty_batch :
    fetchShellyPVStatus (Helper.mk (some (configOf [])) false) deadWorld
      = some (Helper.mk (some (configOf [])) false, [.notify []])
    ∧ configErrors [Effect.notify []] = 0
    ∧ notifications [Effect.notify []] = [[]]
    ∧ ¬ ∃ self1 trace, fetchShellyPVStatus (Helper.mk (some (configOf [])) false) deadWorld
          = some (self1, trace) ∧ 0 < configErrors trace ∧ notifications trace = [] := by
  have h : fetchShellyPVStatus (Helper.mk (some (configOf [])) false) deadWorld
      = some (Helper.mk (some (configOf [])) false, [.notify []]) := rfl
  refine ⟨h, rfl, rfl, ?_⟩
  rintro ⟨self1, trace, ht, hpos, _⟩
  rw [h] at ht
  simp only [Option.some.injEq, Prod.mk.injEq] at ht
  rw [← ht.2] at hpos
  simp [configErrors] at hpos

/-- C7, amended. For a run started while no run is in progress, in every world: when
the device list of the installed configuration is missing or is not an array, the run
reports one configuration error, sends no request and no batch, and releases the lock;
when the device list is an empty array, the run sends no request, reports no
configuration error, sends one empty batch, and releases the lock. -/
theorem configuration_check (self : Helper) (w : World) (hfree : self.isFetching = false) :
    (∀ config, self.config = some config →
      (config.shellysPV = .missing ∨ config.shellysPV = .notArray
        ∨ ∃ s, config.shellysPV = .text s) →
      ∃ self1 trace, fetchShellyPVStatus self w = some (self1, trace)
        ∧ trace = [.configError] ∧ configErrors trace = 1 ∧ requests trace = 0
        ∧ notifications trace = [] ∧ self1.isFetching = false ∧ self1.config = self.config)
    ∧ (∀ config, self.config = some config → config.shellysPV = .array [] →
      ∃ self1 trace, fetchShellyPVStatus self w = some (self1, trace)
        ∧ trace = [.notify []] ∧ configErrors trace = 0 ∧ requests trace = 0
        ∧ notifications trace = [[]] ∧ self1.isFetching = false ∧ self1.config = self.config) := by
  constructor
  · intro config hc h
    refine ⟨{ self with isFetching := false }, [.configError], ?_, rfl, rfl, rfl, rfl, rfl, rfl⟩
    rcases h with h | h | ⟨s, h⟩ <;> simp [fetchShellyPVStatus, enter, hfree, hc, h]
  · intro config hc h
    refine ⟨{ self with isFetching := false }, [.notify []], ?_, rfl, rfl, rfl, rfl, rfl, rfl⟩
    simp [fetchShellyPVStatus, enter, hfree, hc, h, forLoop, leave]

/-- Witness of C7, amended: the configuration that `start` installs, with no device
list. -/
theorem configuration_check_witness :
    start.helper.isFetching = false
    ∧ start.helper.config
        = some { serverUri := none, authKey := none, shellysPV := .missing }
    ∧ ∃ self1 trace, fetchShellyPVStatus start.helper deadWorld = some (self1, trace)
        ∧ trace = [.configError] ∧ configErrors trace = 1 ∧ requests trace = 0
        ∧ notifications trace = [] ∧ self1.isFetching = false
        ∧ self1.config = start.helper.config :=
  ⟨rfl, rfl, (configuration_check start.helper deadWorld rfl).1 _ rfl (Or.inl rfl)⟩

/-- C10, at the failing input. The list is `[A, B]`; while the request for `A` is
pending a `CONFIG` notification installs the list `[Z]`. Line 148 then looks each device
up in `[Z]`: `indexOf` gives `-1`, which is below `1 - 1`, so the run waits 3 seconds
after `A` and after `B`, the last device: two pacing waits, not one. The run completes
and sends its batch of two. Without the notification there is one wait. -/
theorem replaced_list_waits_after_last :
    indexOf [deviceZ] deviceB = -1
    ∧ (fetchShellyPVStatus (Helper.mk (some (configOf [deviceA, deviceB])) false)
        (worldWith (.config (some (configOf [deviceZ]))))).map
      (fun r => (waits 3000 r.2, (notifications r.2).map (fun batch => batch.length)))
      = some (2, [2])
    ∧ (fetchShellyPVStatus (Helper.mk (some (configOf [deviceA, deviceB])) false)
        deadWorld).map
      (fun r => (waits 3000 r.2, (notifications r.2).map (fun batch => batch.length)))
      = some (1, [2]) := by
  refine ⟨by decide, by decide, by decide⟩

/-! ## The lock -/

/-- C8, at the failing input. A `CONFIG` notification with a `null` payload, then a
trigger: line 17 installs `null`, the run passes the guard, sets the lock on line 35 and
throws on line 39, before the `try`; the `finally` never runs. `isFetching` stays true
with no traversal in flight, and every later trigger is skipped, also after a valid
configuration has arrived: no request is made and no batch is sent. -/
theorem null_configuration_keeps_the_lock :
    enter (Helper.mk none false) = (Helper.mk none true, [.uncaught], none)
    ∧ fetchShellyPVStatus (Helper.mk none false) deadWorld
        = some (Helper.mk none true, [.uncaught])
    ∧ (run [.config none, .trigger]).helper.isFetching = true
    ∧ (run [.config none, .trigger]).active = 0
    ∧ step (run [.config none, .trigger]) .trigger
        = { (run [.config none, .trigger]) with
            log := (run [.config none, .trigger]).log ++ [.skipped] }
    ∧ (run [.config none, .trigger, .config (some (configOf [deviceA])), .trigger]).helper.isFetching
        = true
    ∧ (run [.config none, .trigger, .config (some (configOf [deviceA])), .trigger]).active = 0
    ∧ (run [.config none, .trigger, .config (some (configOf [deviceA])), .trigger]).log
        = [.uncaught, .uncaught, .skipped, .skipped] := by
  refine ⟨by rfl, by rfl, by rfl, by rfl, by rfl, by rfl, by rfl, by rfl⟩

end NodeHelper
